import Mathlib

/-!
Verification development for the GraphQL test-mock layer of the
SimpleReactApp repository (tests/graphqlMocks.ts) and the local todo
store it drives.  Pure functions are embedded as Lean functions; the
vitest mock registry is embedded as an explicit state record; JavaScript
nullable slots (which distinguish `undefined` from `null` from a value)
are embedded as `Option (Option _)` with `none` = undefined,
`some none` = null and `some (some v)` = a value.  Promises are
modelled synchronously: the mock mutation resolves immediately with the
handler's result.
-/

/-- The Todo record shape: `{ id, title, completed }`. -/
structure Todo where
  id : String
  title : String
  completed : Bool
deriving DecidableEq, Repr

/-- Embeds `defaultTodo` from tests/graphqlMocks.ts. -/
def defaultTodo : Todo :=
  { id := "1", title := "Default Todo", completed := false }

/-- The Overview record shape: `{ totalTodos, completedTodos }`. -/
structure Overview where
  totalTodos : Nat
  completedTodos : Nat
deriving DecidableEq, Repr

/-- Embeds `defaultOverview` from tests/graphqlMocks.ts. -/
def defaultOverview : Overview :=
  { totalTodos := 0, completedTodos := 0 }

/-- A partial override of the Todo shape (`Partial<typeof defaultTodo>`):
each field is either absent (`none`) or supplied (`some v`). -/
structure TodoOverrides where
  id : Option String := none
  title : Option String := none
  completed : Option Bool := none
deriving DecidableEq, Repr

/-- A partial override of the Overview shape
(`Partial<typeof defaultOverview>`). -/
structure OverviewOverrides where
  totalTodos : Option Nat := none
  completedTodos : Option Nat := none
deriving DecidableEq, Repr

/-- Embeds the builder `todo(overrides)` from tests/graphqlMocks.ts:
the JavaScript spread `{ ...defaultTodo, ...overrides }`, which keeps a
default field unless the override supplies that key. -/
def todo (overrides : TodoOverrides) : Todo :=
  { id := overrides.id.getD defaultTodo.id,
    title := overrides.title.getD defaultTodo.title,
    completed := overrides.completed.getD defaultTodo.completed }

/-- Embeds the builder `overview(overrides)` from tests/graphqlMocks.ts:
the JavaScript spread `{ ...defaultOverview, ...overrides }`. -/
def overview (overrides : OverviewOverrides) : Overview :=
  { totalTodos := overrides.totalTodos.getD defaultOverview.totalTodos,
    completedTodos := overrides.completedTodos.getD defaultOverview.completedTodos }

/-- The empty Todo override `{}`. -/
def emptyTodoOverrides : TodoOverrides := {}

/-- The empty Overview override `{}`. -/
def emptyOverviewOverrides : OverviewOverrides := {}

/-! ## A JSON-like value tree, used to state the deep-merge claim -/

/-- A JavaScript-style structured value: strings, booleans, numbers,
arrays and objects (ordered key-value field lists). -/
inductive JValue where
  | s (v : String)
  | b (v : Bool)
  | n (v : Nat)
  | arr (elems : List JValue)
  | obj (fields : List (String × JValue))
deriving Repr

/-- Looks up the value stored under key `k` in an object field list. -/
def lookupField (k : String) : List (String × JValue) → Option JValue
  | [] => none
  | (k2, v) :: rest => if k2 = k then some v else lookupField k rest

mutual

/-- Follows the spec's words (recursive deep merge, the second
definition of a refinement pair): for each key present in the override,
if both the default and the override value at that key are non-array
structured objects the merge recurses, and otherwise (scalar, array, or
type mismatch) the override value replaces the default value wholesale;
keys present only in the override are appended. -/
def deepMerge : JValue → JValue → JValue
  | JValue.obj df, JValue.obj of =>
      JValue.obj (deepMergeFields df of ++ of.filter (fun p => (lookupField p.1 df).isNone))
  | _, o => o

/-- Merges an override field list into a default field list key by key,
recursing through `deepMerge` on keys present in both. -/
def deepMergeFields : List (String × JValue) → List (String × JValue) → List (String × JValue)
  | [], _ => []
  | (k, dv) :: rest, of =>
      match lookupField k of with
      | none => (k, dv) :: deepMergeFields rest of
      | some ov => (k, deepMerge dv ov) :: deepMergeFields rest of

end

/-- Encodes a Todo record as a JavaScript object value. -/
def encodeTodo (t : Todo) : JValue :=
  JValue.obj [("id", JValue.s t.id), ("title", JValue.s t.title),
    ("completed", JValue.b t.completed)]

/-- Encodes a partial Todo override as a JavaScript object value
carrying exactly the supplied keys. -/
def encodeTodoOverrides (ov : TodoOverrides) : JValue :=
  JValue.obj ((ov.id.toList.map fun v => ("id", JValue.s v)) ++
    (ov.title.toList.map fun v => ("title", JValue.s v)) ++
    (ov.completed.toList.map fun v => ("completed", JValue.b v)))

/-- Encodes an Overview record as a JavaScript object value. -/
def encodeOverview (o : Overview) : JValue :=
  JValue.obj [("totalTodos", JValue.n o.totalTodos),
    ("completedTodos", JValue.n o.completedTodos)]

/-- Encodes a partial Overview override as a JavaScript object value
carrying exactly the supplied keys. -/
def encodeOverviewOverrides (ov : OverviewOverrides) : JValue :=
  JValue.obj ((ov.totalTodos.toList.map fun v => ("totalTodos", JValue.n v)) ++
    (ov.completedTodos.toList.map fun v => ("completedTodos", JValue.n v)))

/-! ## The GraphQL mock registry (tests/graphqlMocks.ts)

JavaScript nullable slots distinguish `undefined` from `null`: a slot of
type `Option (Option A)` reads `none` = undefined (key absent),
`some none` = null, `some (some a)` = the value `a`.  A `vi.fn()` call
counter is identified by a natural-number token; `mockGetTodosQuery`
and friends receive the token of the fresh `vi.fn()` their destructuring
default would allocate. -/

/-- A JavaScript `Error` object, observed only through its message. -/
structure JsError where
  message : String
deriving DecidableEq, Repr

/-- The data shape reported by the todos query: `{ todos: Todo[] }`. -/
structure TodosData where
  todos : List Todo
deriving DecidableEq, Repr

/-- The data shape reported by the overview query:
`{ overview: Overview }`. -/
structure OverviewData where
  overview : Overview
deriving DecidableEq, Repr

/-- The options record accepted by `mockGetTodosQuery` and
`mockGetOverviewQuery`: every key optional, `data` and `error` also
admitting an explicit null. -/
structure QueryOpts (A : Type) where
  data : Option (Option A) := none
  loading : Option Bool := none
  error : Option (Option JsError) := none
  refetch : Option Nat := none
deriving DecidableEq, Repr

/-- The `{data, loading, error, refetch}` tuple a mocked query hook
reports to its caller.  The `data` and `error` slots keep the full
JavaScript nullable range so that null and undefined stay
distinguishable. -/
structure QueryResult (A : Type) where
  data : Option (Option A) := none
  loading : Bool := false
  error : Option (Option JsError) := none
  refetch : Nat := 0
deriving DecidableEq, Repr

/-- The `{ variables: { id } }` argument of the toggle mutation. -/
structure ToggleVars where
  id : String
deriving DecidableEq, Repr

/-- The argument record passed to the mocked mutation function; the
field is named `variables` in the source, a reserved word in Lean. -/
structure ToggleArgs where
  vars : ToggleVars
deriving DecidableEq, Repr

/-- The payload of a toggle-mutation result: `{ toggleTodo: Todo }`. -/
structure ToggleData where
  toggleTodo : Todo
deriving DecidableEq, Repr

/-- A toggle-mutation result: `{ data: { toggleTodo } }`. -/
structure ToggleResult where
  data : ToggleData
deriving DecidableEq, Repr

/-- The state of one `vi.fn()` stand-in: its configured behaviour (what
`mockReturnValue` installed, if anything) and its recorded call count. -/
structure MockState (A : Type) where
  config : Option A := none
  calls : Nat := 0

/-- The registry of the three capability stand-ins exported by
tests/graphqlMocks.ts. -/
structure GraphqlMocks where
  useGetTodosQuery : MockState (QueryResult TodosData)
  useToggleTodoMutation : MockState (ToggleArgs → ToggleResult)
  useGetOverviewQuery : MockState (QueryResult OverviewData)

/-- The registry before any configuration. -/
def initialGraphqlMocks : GraphqlMocks :=
  { useGetTodosQuery := {}, useToggleTodoMutation := {}, useGetOverviewQuery := {} }

/-- Embeds the tuple `mockGetTodosQuery` installs via `mockReturnValue`:
destructure `{ data, loading = false, error = null, refetch = vi.fn() }`
from the options, then report `data ?? { todos: [todo()] }`, `loading`,
`error ?? undefined` and `refetch`. -/
def mkTodosReturn (opts : QueryOpts TodosData) (fresh : Nat) : QueryResult TodosData :=
  { data := some (some (match opts.data with
      | some (some d) => d
      | _ => { todos := [todo {}] })),
    loading := opts.loading.getD false,
    error := match opts.error.getD none with
      | none => none
      | some e => some (some e),
    refetch := opts.refetch.getD fresh }

/-- Embeds `mockGetTodosQuery(opts)`: installs the reported tuple on the
`useGetTodosQuery` stand-in and returns `{ refetch }`, the same function
token the tuple carries. -/
def mockGetTodosQuery (opts : QueryOpts TodosData) (fresh : Nat) (s : GraphqlMocks) :
    GraphqlMocks × Nat :=
  ({ s with useGetTodosQuery :=
      { s.useGetTodosQuery with config := some (mkTodosReturn opts fresh) } },
   opts.refetch.getD fresh)

/-- Embeds the tuple `mockGetOverviewQuery` installs via
`mockReturnValue`, with default data `{ overview: overview() }`. -/
def mkOverviewReturn (opts : QueryOpts OverviewData) (fresh : Nat) : QueryResult OverviewData :=
  { data := some (some (match opts.data with
      | some (some d) => d
      | _ => { overview := overview {} })),
    loading := opts.loading.getD false,
    error := match opts.error.getD none with
      | none => none
      | some e => some (some e),
    refetch := opts.refetch.getD fresh }

/-- Embeds `mockGetOverviewQuery(opts)`: installs the reported tuple on
the `useGetOverviewQuery` stand-in and returns `{ refetch }`. -/
def mockGetOverviewQuery (opts : QueryOpts OverviewData) (fresh : Nat) (s : GraphqlMocks) :
    GraphqlMocks × Nat :=
  ({ s with useGetOverviewQuery :=
      { s.useGetOverviewQuery with config := some (mkOverviewReturn opts fresh) } },
   opts.refetch.getD fresh)

/-- Embeds the default mutation implementation: echo back a todo with
the given id, using defaults for the other fields —
`(variables) => ({ data: { toggleTodo: todo({ id: variables.id }) } })`. -/
def defaultToggleHandler (vars : ToggleVars) : ToggleResult :=
  { data := { toggleTodo := todo { id := some vars.id } } }

/-- Embeds `mockToggleTodoMutation(impl?)`: picks `impl ?? default
handler`, wraps it into a mutation function from `{ variables }` (the
`Promise.resolve` of the source is modelled synchronously), installs it
on the `useToggleTodoMutation` stand-in and returns it. -/
def mockToggleTodoMutation (impl : Option (ToggleVars → ToggleResult)) (s : GraphqlMocks) :
    GraphqlMocks × (ToggleArgs → ToggleResult) :=
  let handler := impl.getD defaultToggleHandler
  let mutation := fun args : ToggleArgs => handler args.vars
  ({ s with useToggleTodoMutation :=
      { s.useToggleTodoMutation with config := some mutation } },
   mutation)

/-- Embeds `resetGraphqlMocks()`: `mockReset()` on all three stand-ins,
dropping both the installed behaviour and the call history. -/
def resetGraphqlMocks (_s : GraphqlMocks) : GraphqlMocks :=
  { useGetTodosQuery := {}, useToggleTodoMutation := {}, useGetOverviewQuery := {} }

/-! ## The local todo store -/

/-- The LocalStore state: `{ todos, loading, error }`. -/
structure TodoStoreState where
  todos : List Todo
  loading : Bool
  error : Option String
deriving DecidableEq, Repr

/-- Modelled from the spec: the store implementation (`useTodoStore` in
App.tsx) is not under src, only its tests are.  `setTodos` replaces the
entire collection verbatim, with no merge against the prior state. -/
def setTodos (list : List Todo) (s : TodoStoreState) : TodoStoreState :=
  { s with todos := list }

/-- Modelled from the spec: `updateTodo(record)` replaces the element
whose id matches the record's id and leaves every other element
unchanged and in place; when no id matches, the collection is unchanged
and no error is raised. -/
def updateTodo (record : Todo) (s : TodoStoreState) : TodoStoreState :=
  { s with todos := s.todos.map fun t => if t.id = record.id then record else t }

/-! ## Theorems -/

/-- Claim C1: for every shape (Todo, Overview) and every override, the
builder applies the override to the structural default by recursive
deep merge — the value built by the source's spread coincides with the
spec's recursive deep merge of the default with the override, and
arrays are substituted wholesale, never element-wise merged. -/
theorem builders_apply_recursive_deep_merge :
    (∀ ov : TodoOverrides,
      encodeTodo (todo ov) = deepMerge (encodeTodo defaultTodo) (encodeTodoOverrides ov)) ∧
    (∀ ov : OverviewOverrides,
      encodeOverview (overview ov) =
        deepMerge (encodeOverview defaultOverview) (encodeOverviewOverrides ov)) ∧
    (∀ xs ys : List JValue, deepMerge (JValue.arr xs) (JValue.arr ys) = JValue.arr ys) := by
  refine ⟨fun ov => ?_, fun ov => ?_, fun xs ys => by simp [deepMerge]⟩
  · obtain ⟨i, t, c⟩ := ov
    cases i <;> cases t <;> cases c <;>
      simp [encodeTodo, encodeTodoOverrides, todo, defaultTodo, deepMerge, deepMergeFields,
        lookupField]
  · obtain ⟨tt, ct⟩ := ov
    cases tt <;> cases ct <;>
      simp [encodeOverview, encodeOverviewOverrides, overview, defaultOverview, deepMerge,
        deepMergeFields, lookupField]

/-- Claim C2: every path supplied by an override is reported with the
override's value in the built record, and every path the override does
not supply keeps the structural default's value, for both shapes. -/
theorem override_paths_take_precedence (ov : TodoOverrides) (ow : OverviewOverrides) :
    (∀ x, ov.id = some x → (todo ov).id = x) ∧
    (ov.id = none → (todo ov).id = defaultTodo.id) ∧
    (∀ x, ov.title = some x → (todo ov).title = x) ∧
    (ov.title = none → (todo ov).title = defaultTodo.title) ∧
    (∀ x, ov.completed = some x → (todo ov).completed = x) ∧
    (ov.completed = none → (todo ov).completed = defaultTodo.completed) ∧
    (∀ x, ow.totalTodos = some x → (overview ow).totalTodos = x) ∧
    (ow.totalTodos = none → (overview ow).totalTodos = defaultOverview.totalTodos) ∧
    (∀ x, ow.completedTodos = some x → (overview ow).completedTodos = x) ∧
    (ow.completedTodos = none → (overview ow).completedTodos = defaultOverview.completedTodos) := by
  refine ⟨?_, ?_, ?_, ?_, ?_, ?_, ?_, ?_, ?_, ?_⟩ <;>
    intros <;> simp_all [todo, overview]

/-- Witness for claim C2: a supplied id is reported verbatim and an
unsupplied title keeps the default. -/
theorem override_paths_take_precedence_witness :
    (todo { id := some "42" }).id = "42" ∧
    (todo { id := some "42" }).title = defaultTodo.title :=
  ⟨(override_paths_take_precedence { id := some "42" } {}).1 "42" rfl,
   (override_paths_take_precedence { id := some "42" } {}).2.2.2.1 rfl⟩

/-- Claim C3: building either shape from the empty override returns
exactly the structural default (merge identity law). -/
theorem build_empty_override_is_default :
    todo emptyTodoOverrides = defaultTodo ∧
    overview emptyOverviewOverrides = defaultOverview :=
  ⟨rfl, rfl⟩

/-- Counterexample to claim C4 as stated: configuring the todos query
stand-in with `data: null` does not make it report `data: null` — the
null-coalescing `data ?? { todos: [todo()] }` substitutes the default
fixture instead, so the reported tuple is not the configured one. -/
theorem query_mock_configured_tuple_counterexample :
    ¬ (∀ (opts : QueryOpts TodosData) (fresh : Nat) (s : GraphqlMocks)
        (x : Option TodosData) (r : QueryResult TodosData),
        opts.data = some x →
        (mockGetTodosQuery opts fresh s).1.useGetTodosQuery.config = some r →
        r.data = some x) := by
  intro h
  have := h { data := some none } 0 initialGraphqlMocks none
    (mkTodosReturn { data := some none } 0) rfl rfl
  simp [mkTodosReturn] at this

/-- Claim C4 (amended): after a configure call, the stand-in reports
exactly one tuple, obtained from the configuration by defaulting — a
non-null supplied `data` is reported verbatim (an absent or null `data`
is replaced by the default fixture), `loading` defaults to false, a
supplied non-null `error` is reported verbatim, and `refetch` defaults
to a fresh counter; stated for both query configure operations. -/
theorem query_mock_reports_configured_tuple (optsT : QueryOpts TodosData)
    (optsO : QueryOpts OverviewData) (fresh : Nat) (s : GraphqlMocks) :
    (mockGetTodosQuery optsT fresh s).1.useGetTodosQuery.config = some (mkTodosReturn optsT fresh) ∧
    (∀ d, optsT.data = some (some d) → (mkTodosReturn optsT fresh).data = some (some d)) ∧
    ((optsT.data = none ∨ optsT.data = some none) →
      (mkTodosReturn optsT fresh).data = some (some { todos := [todo {}] })) ∧
    (mkTodosReturn optsT fresh).loading = optsT.loading.getD false ∧
    (∀ e, optsT.error = some (some e) → (mkTodosReturn optsT fresh).error = some (some e)) ∧
    (mkTodosReturn optsT fresh).refetch = optsT.refetch.getD fresh ∧
    (mockGetOverviewQuery optsO fresh s).1.useGetOverviewQuery.config =
      some (mkOverviewReturn optsO fresh) ∧
    (∀ d, optsO.data = some (some d) → (mkOverviewReturn optsO fresh).data = some (some d)) ∧
    ((optsO.data = none ∨ optsO.data = some none) →
      (mkOverviewReturn optsO fresh).data = some (some { overview := overview {} })) ∧
    (mkOverviewReturn optsO fresh).loading = optsO.loading.getD false ∧
    (∀ e, optsO.error = some (some e) → (mkOverviewReturn optsO fresh).error = some (some e)) ∧
    (mkOverviewReturn optsO fresh).refetch = optsO.refetch.getD fresh := by
  refine ⟨rfl, ?_, ?_, rfl, ?_, rfl, rfl, ?_, ?_, rfl, ?_, rfl⟩
  · intro d h; simp [mkTodosReturn, h]
  · rintro (h | h) <;> simp [mkTodosReturn, h]
  · intro e h; simp [mkTodosReturn, h]
  · intro d h; simp [mkOverviewReturn, h]
  · rintro (h | h) <;> simp [mkOverviewReturn, h]
  · intro e h; simp [mkOverviewReturn, h]

/-- Witness for the amended claim C4: a configuration supplying
`data = { todos: [] }` is reported with exactly that data, and a null
`data` configuration for the overview query is reported with the
default fixture. -/
theorem query_mock_reports_configured_tuple_witness :
    (mkTodosReturn { data := some (some { todos := [] }) } 0).data = some (some { todos := [] }) ∧
    (mkOverviewReturn { data := some none } 0).data = some (some { overview := overview {} }) :=
  ⟨(query_mock_reports_configured_tuple { data := some (some { todos := [] }) }
      { data := some none } 0 initialGraphqlMocks).2.1 { todos := [] } rfl,
   (query_mock_reports_configured_tuple { data := some (some { todos := [] }) }
      { data := some none } 0 initialGraphqlMocks).2.2.2.2.2.2.2.2.1 (Or.inr rfl)⟩

/-- Claim C5: with no custom handler, invoking the mutation stand-in
with `{ variables: { id } }` resolves to a result whose record carries
exactly that id and the default title "Default Todo" and completed
false — an identity echo. -/
theorem toggle_mutation_default_identity_echo (id : String) (s : GraphqlMocks) :
    (mockToggleTodoMutation none s).2 { vars := { id := id } } =
      { data := { toggleTodo := { id := id, title := "Default Todo", completed := false } } } := by
  simp [mockToggleTodoMutation, defaultToggleHandler, todo, defaultTodo]

/-- Claim C6: `resetGraphqlMocks` clears the configuration and the call
history of all three stand-ins uniformly, is total (a plain function on
registry states), and is idempotent. -/
theorem reset_clears_all_mocks_and_is_idempotent (s : GraphqlMocks) :
    (resetGraphqlMocks s).useGetTodosQuery.config = none ∧
    (resetGraphqlMocks s).useGetTodosQuery.calls = 0 ∧
    (resetGraphqlMocks s).useToggleTodoMutation.config = none ∧
    (resetGraphqlMocks s).useToggleTodoMutation.calls = 0 ∧
    (resetGraphqlMocks s).useGetOverviewQuery.config = none ∧
    (resetGraphqlMocks s).useGetOverviewQuery.calls = 0 ∧
    resetGraphqlMocks (resetGraphqlMocks s) = resetGraphqlMocks s :=
  ⟨rfl, rfl, rfl, rfl, rfl, rfl, rfl⟩

/-- Claim C7: `setTodos(list)` makes the store's todo collection equal
`list` exactly, whatever the prior state — a verbatim replacement with
no merge. -/
theorem setTodos_replaces_collection_verbatim (s : TodoStoreState) (list : List Todo) :
    (setTodos list s).todos = list :=
  rfl

/-- Claim C8: `updateTodo(record)` keeps the collection's length,
rewrites exactly the positions whose element's id equals the record's id
(every other position keeps its element in place), and when no element's
id matches it leaves the whole state unchanged; being a total function,
it raises no error. -/
theorem updateTodo_replaces_only_matching_id (s : TodoStoreState) (record : Todo) :
    (updateTodo record s).todos.length = s.todos.length ∧
    (∀ i : Nat, (updateTodo record s).todos[i]? =
      (s.todos[i]?).map fun t => if t.id = record.id then record else t) ∧
    ((∀ t ∈ s.todos, t.id ≠ record.id) → updateTodo record s = s) := by
  refine ⟨by simp [updateTodo], fun i => by simp [updateTodo], fun h => ?_⟩
  have htodos : (s.todos.map fun t => if t.id = record.id then record else t) = s.todos := by
    conv_rhs => rw [← List.map_id s.todos]
    exact List.map_congr_left fun t ht => by simp [h t ht]
  cases s with
  | mk todos loading error => simp [updateTodo, htodos]

/-- Witness for claim C8: updating with an id absent from a concrete
two-element collection leaves the state unchanged. -/
theorem updateTodo_replaces_only_matching_id_witness :
    updateTodo { id := "9", title := "X", completed := true }
        { todos := [{ id := "1", title := "A", completed := false },
                    { id := "2", title := "B", completed := false }],
          loading := false, error := none } =
      { todos := [{ id := "1", title := "A", completed := false },
                  { id := "2", title := "B", completed := false }],
        loading := false, error := none } :=
  (updateTodo_replaces_only_matching_id
      { todos := [{ id := "1", title := "A", completed := false },
                  { id := "2", title := "B", completed := false }],
        loading := false, error := none }
      { id := "9", title := "X", completed := true }).2.2 (by decide)

/-- Claim C9: the error field a configured query stand-in reports is
never null: when the configuration supplies no error, or supplies an
explicit null, the reported error is undefined, for both query mocks. -/
theorem query_mock_error_never_null (optsT : QueryOpts TodosData)
    (optsO : QueryOpts OverviewData) (fresh : Nat) :
    (mkTodosReturn optsT fresh).error ≠ some none ∧
    ((optsT.error = none ∨ optsT.error = some none) → (mkTodosReturn optsT fresh).error = none) ∧
    (mkOverviewReturn optsO fresh).error ≠ some none ∧
    ((optsO.error = none ∨ optsO.error = some none) →
      (mkOverviewReturn optsO fresh).error = none) := by
  refine ⟨?_, ?_, ?_, ?_⟩
  · rcases h : optsT.error with _ | (_ | e) <;> simp [mkTodosReturn, h]
  · rintro (h | h) <;> simp [mkTodosReturn, h]
  · rcases h : optsO.error with _ | (_ | e) <;> simp [mkOverviewReturn, h]
  · rintro (h | h) <;> simp [mkOverviewReturn, h]

/-- Witness for claim C9: a configuration with an explicitly null error
reports the undefined error, and one with no error key does too. -/
theorem query_mock_error_never_null_witness :
    (mkTodosReturn { error := some none } 0).error = none ∧
    (mkOverviewReturn ({} : QueryOpts OverviewData) 0).error = none :=
  ⟨(query_mock_error_never_null { error := some none } {} 0).2.1 (Or.inr rfl),
   (query_mock_error_never_null { error := some none } {} 0).2.2.2 (Or.inl rfl)⟩

/-- Claim C10: the refetch handle returned by the query configure
operations is exactly the refetch carried by the tuple the configured
stand-in reports, for both query mocks and every configuration. -/
theorem query_mock_returns_reported_refetch (optsT : QueryOpts TodosData)
    (optsO : QueryOpts OverviewData) (fresh : Nat) (s : GraphqlMocks) :
    (mockGetTodosQuery optsT fresh s).2 = (mkTodosReturn optsT fresh).refetch ∧
    (mockGetTodosQuery optsT fresh s).1.useGetTodosQuery.config =
      some (mkTodosReturn optsT fresh) ∧
    (mockGetOverviewQuery optsO fresh s).2 = (mkOverviewReturn optsO fresh).refetch ∧
    (mockGetOverviewQuery optsO fresh s).1.useGetOverviewQuery.config =
      some (mkOverviewReturn optsO fresh) :=
  ⟨rfl, rfl, rfl, rfl⟩
